import Mathlib

/-!
Verification of the gpt-oss-eval demo repository.

This file gives a shallow embedding of the pure fragments of the repository
(prompt assembly, history slicing, tool output formatting, the simulated
weather tools, and the control flow around missing credentials), and proves
the testable properties stated in the design document about them.

Randomness is modelled by passing an explicit stream of draws: a call of
Python randint(lo, hi) becomes a function of one draw that always lands in
the closed interval from lo to hi, and random.choice becomes selection of an
index modulo the list length.
-/

/-- Python str.lower() on a string, modelled as mapping Char.toLower over the
characters. -/
def pyLower (s : String) : String := String.mk (s.data.map Char.toLower)

/-- Does the character list hay contain needle as a contiguous sublist?
Executable model of the Python substring test needle in hay. -/
def pySubInAux (needle : List Char) : List Char → Bool
  | [] => needle.isEmpty
  | c :: rest => needle.isPrefixOf (c :: rest) || pySubInAux needle rest

/-- Python substring containment: needle in hay. -/
def pySubIn (needle hay : String) : Bool := pySubInAux needle.data hay.data

/-- Python slicing l[-n:] : the suffix of at most n elements. -/
def pySliceLast (n : Nat) (l : List α) : List α := l.drop (l.length - n)

/-- Python random.randint(lo, hi) over naturals: the draw r is folded into
the closed interval lo..hi. -/
def natRandint (lo hi r : Nat) : Nat := lo + r % (hi + 1 - lo)

/-- Python random.randint(lo, hi) over integers: the draw r is folded into
the closed interval lo..hi. -/
def intRandint (lo hi : Int) (r : Nat) : Int := lo + ((r % (hi + 1 - lo).toNat : Nat) : Int)

/-- Python random.choice from a list of strings, selecting by the draw modulo
the list length. -/
def pyChoice (l : List String) (r : Nat) : String := l.getD (r % l.length) ""

/-- The string hay contains the string needle as contiguous text. -/
def containsText (hay needle : String) : Prop := ∃ pre post : String, hay = pre ++ needle ++ post

theorem natRandint_mem (lo hi r : Nat) (h : lo ≤ hi) :
    lo ≤ natRandint lo hi r ∧ natRandint lo hi r ≤ hi := by
  unfold natRandint
  have hpos : 0 < hi + 1 - lo := by omega
  have := Nat.mod_lt r hpos
  omega

theorem intRandint_mem (lo hi : Int) (r : Nat) (h : lo ≤ hi) :
    lo ≤ intRandint lo hi r ∧ intRandint lo hi r ≤ hi := by
  unfold intRandint
  have hpos : 0 < (hi + 1 - lo).toNat := by omega
  have := Nat.mod_lt r hpos
  omega

namespace App2

/-
Embedding of src/app2.py: per-session chat history and prompt assembly.
A history entry is a pair (type, content) mirroring the Python dicts
with keys "type" and "content".
-/

/-- Histories reachable in a session of app2.py: on_chat_start initializes
chat_messages to [] and every successful turn of on_message appends a
human entry and an ai entry together. -/
inductive ReachableHistory : List (String × String) → Prop where
  | nil : ReachableHistory []
  | step (h : List (String × String)) (q a : String) :
      ReachableHistory h → ReachableHistory (h ++ [("human", q), ("ai", a)])

/-- The history window app2.py sends to the prompt: history_view[-20:]. -/
def historyWindow (h : List (String × String)) : List (String × String) :=
  pySliceLast 20 h

theorem reachable_even_and_human (h : List (String × String))
    (hr : ReachableHistory h) :
    h.length % 2 = 0 ∧
      ∀ i, (hi : i < h.length) → i % 2 = 0 → (h.get ⟨i, hi⟩).1 = "human" := by
  induction hr with
  | nil => simp
  | step h q a _ ih =>
    obtain ⟨hl, hall⟩ := ih
    refine ⟨by simp; omega, ?_⟩
    intro i hi hmod
    by_cases hlt : i < h.length
    · have : (h ++ [("human", q), ("ai", a)]).get ⟨i, hi⟩ = h.get ⟨i, hlt⟩ := by
        simp [List.getElem_append_left hlt]
      rw [this]
      exact hall i hlt hmod
    · have hlen : (h ++ [("human", q), ("ai", a)]).length = h.length + 2 := by simp
      have hieq : i = h.length := by omega
      subst hieq
      simp [List.getElem_append_right (Nat.le_refl h.length)]

end App2

/-- Claim C1: for every reachable session history of app2.py, the slice
history_view[-20:] that on_message feeds into the prompt has at most 20
entries, and — because handlers always append a human entry and an ai entry
together — the retained suffix never splits a human/ai pair: whenever it is
nonempty it begins at a human entry. -/
theorem history_window_bounded_and_pair_aligned
    (h : List (String × String)) (hr : App2.ReachableHistory h) :
    (App2.historyWindow h).length ≤ 20 ∧
      ∀ m, (App2.historyWindow h).head? = some m → m.1 = "human" := by
  obtain ⟨heven, hhuman⟩ := App2.reachable_even_and_human h hr
  constructor
  · simp only [App2.historyWindow, pySliceLast, List.length_drop]
    omega
  · intro m hm
    rw [App2.historyWindow, pySliceLast, List.head?_drop] at hm
    rw [List.getElem?_eq_some] at hm
    obtain ⟨hlt, hget⟩ := hm
    have hmod : (h.length - 20) % 2 = 0 := by omega
    have := hhuman (h.length - 20) hlt hmod
    simp only [List.get_eq_getElem] at this
    rw [hget] at this
    exact this

/-- Witness for C1 at the concrete two-entry history produced by one turn. -/
theorem history_window_bounded_witness :
    (App2.historyWindow [("human", "hi"), ("ai", "yo")]).length ≤ 20 ∧
      (("human", "hi") : String × String).1 = "human" := by
  have hr : App2.ReachableHistory [("human", "hi"), ("ai", "yo")] := by
    have hstep := App2.ReachableHistory.step [] "hi" "yo" App2.ReachableHistory.nil
    simpa using hstep
  refine ⟨(history_window_bounded_and_pair_aligned _ hr).1, ?_⟩
  exact (history_window_bounded_and_pair_aligned _ hr).2 ("human", "hi") (by decide)

namespace SearchAgents

/-
Embedding of the run configuration passed to agent.stream in
src/search_agent_duckduckgo.py (run_search_agent) and
src/search_agent_tavily.py (run_search_agent), and a model of the
tool-dispatch loop they delegate to.
-/

/-- The invocation config dict: configurable.thread_id and recursion_limit. -/
structure AgentRunConfig where
  threadId : String
  recursionLimit : Nat
deriving DecidableEq

/-- The config built in run_search_agent of search_agent_duckduckgo.py. -/
def duckduckgoRunConfig : AgentRunConfig :=
  { threadId := "search_session_1", recursionLimit := 15 }

/-- The config built in run_search_agent of search_agent_tavily.py. -/
def tavilyRunConfig : AgentRunConfig :=
  { threadId := "search_session_1", recursionLimit := 15 }

/-- One decision of the model inside the agent loop: either request a tool
or produce the final answer. -/
inductive ModelTurn where
  | toolCall (name args : String)
  | finalAnswer (content : String)

/-- Outcome of one user turn of the agent loop: a final answer, or the
truncation signal raised when the step bound is exceeded. -/
inductive LoopOutcome where
  | final (content : String) (rounds : Nat)
  | truncated (rounds : Nat)
deriving DecidableEq

/-- Number of model-to-tool round trips performed in an outcome. -/
def LoopOutcome.roundTrips : LoopOutcome → Nat
  | .final _ n => n
  | .truncated n => n

/-- Modelled from the spec: the tool-dispatch loop of the external agent
framework (create_react_agent / agent.stream), which is not part of this
repository. When the model yields a tool call the named tool is executed and
the loop re-invokes the model; the loop is bounded by the configured
recursion limit and, on exceeding it, terminates with a truncation signal
rather than looping forever. -/
def dispatchLoop (policy : Nat → ModelTurn) (execTool : String → String → String) :
    Nat → Nat → LoopOutcome
  | 0, rounds => .truncated rounds
  | fuel + 1, rounds =>
    match policy rounds with
    | .finalAnswer c => .final c rounds
    | .toolCall name args =>
      let _ := execTool name args
      dispatchLoop policy execTool fuel (rounds + 1)

/-- One user turn of run_search_agent: the dispatch loop run with the
recursion limit from the invocation config. -/
def runSearchAgentTurn (cfg : AgentRunConfig) (policy : Nat → ModelTurn)
    (execTool : String → String → String) : LoopOutcome :=
  dispatchLoop policy execTool cfg.recursionLimit 0

theorem dispatchLoop_roundTrips_le (policy : Nat → ModelTurn)
    (execTool : String → String → String) :
    ∀ fuel rounds, (dispatchLoop policy execTool fuel rounds).roundTrips ≤ rounds + fuel := by
  intro fuel
  induction fuel with
  | zero => intro rounds; simp [dispatchLoop, LoopOutcome.roundTrips]
  | succ n ih =>
    intro rounds
    simp only [dispatchLoop]
    cases policy rounds with
    | finalAnswer c => simp [LoopOutcome.roundTrips]
    | toolCall name args =>
      have := ih (rounds + 1)
      simpa [LoopOutcome.roundTrips] using Nat.le_trans this (by omega)

theorem dispatchLoop_all_tools_truncates (policy : Nat → ModelTurn)
    (execTool : String → String → String)
    (hall : ∀ n, ∃ name args, policy n = .toolCall name args) :
    ∀ fuel rounds, dispatchLoop policy execTool fuel rounds = .truncated (rounds + fuel) := by
  intro fuel
  induction fuel with
  | zero => intro rounds; simp [dispatchLoop]
  | succ n ih =>
    intro rounds
    obtain ⟨name, args, hstep⟩ := hall rounds
    simp only [dispatchLoop, hstep]
    have := ih (rounds + 1)
    rw [this]
    congr 1
    omega

end SearchAgents

/-- Claim C2: both search-agent run loops pass recursion_limit 15 in their
invocation config; under that bound the number of model-to-tool round trips
of a single user turn never exceeds 15, and a run whose model keeps emitting
tool calls terminates with the truncation signal after exactly 15 round
trips instead of looping forever. -/
theorem search_agent_round_trips_bounded
    (policy : Nat → SearchAgents.ModelTurn) (execTool : String → String → String)
    (hall : ∀ n, ∃ name args, policy n = SearchAgents.ModelTurn.toolCall name args) :
    SearchAgents.duckduckgoRunConfig.recursionLimit = 15 ∧
    SearchAgents.tavilyRunConfig.recursionLimit = 15 ∧
    (SearchAgents.runSearchAgentTurn SearchAgents.duckduckgoRunConfig policy execTool).roundTrips ≤ 15 ∧
    (SearchAgents.runSearchAgentTurn SearchAgents.tavilyRunConfig policy execTool).roundTrips ≤ 15 ∧
    SearchAgents.runSearchAgentTurn SearchAgents.duckduckgoRunConfig policy execTool =
      SearchAgents.LoopOutcome.truncated 15 := by
  refine ⟨rfl, rfl, ?_, ?_, ?_⟩
  · simpa using SearchAgents.dispatchLoop_roundTrips_le policy execTool 15 0
  · simpa using SearchAgents.dispatchLoop_roundTrips_le policy execTool 15 0
  · simpa using SearchAgents.dispatchLoop_all_tools_truncates policy execTool hall 15 0

/-- Witness for C2 with a policy that always requests the search tool. -/
theorem search_agent_round_trips_bounded_witness :
    (SearchAgents.runSearchAgentTurn SearchAgents.duckduckgoRunConfig
        (fun _ => SearchAgents.ModelTurn.toolCall "duckduckgo_search" "query")
        (fun _ _ => "result")).roundTrips ≤ 15 ∧
    SearchAgents.runSearchAgentTurn SearchAgents.duckduckgoRunConfig
        (fun _ => SearchAgents.ModelTurn.toolCall "duckduckgo_search" "query")
        (fun _ _ => "result") = SearchAgents.LoopOutcome.truncated 15 := by
  have happly := search_agent_round_trips_bounded
    (fun _ => SearchAgents.ModelTurn.toolCall "duckduckgo_search" "query")
    (fun _ _ => "result") (fun n => ⟨"duckduckgo_search", "query", rfl⟩)
  exact ⟨happly.2.2.1, happly.2.2.2.2⟩

namespace DuckduckgoTool

/-
Embedding of the duckduckgo_search tool body of
src/search_agent_duckduckgo.py. The external ddgs call is modelled by an
outcome value: the import failing, the body raising, or a list of result
records (each a dict with optional title, href and body fields).
-/

/-- One result record returned by the external search call. -/
structure SearchResult where
  title : Option String
  href : Option String
  body : Option String
deriving DecidableEq

/-- What the external search body does on a given input: the ddgs import
fails, some exception is raised, or a result list comes back. -/
inductive SearchBody where
  | importError
  | raised (msg : String)
  | ok (results : List SearchResult)

/-- Snippet truncation: if len(snippet) > 200 then snippet[:200] + "...". -/
def truncateSnippet (snippet : String) : String :=
  if snippet.length > 200 then String.mk (snippet.data.take 200) ++ "..." else snippet

/-- Formatting of one numbered result inside the loop of duckduckgo_search. -/
def formatResult (i : Nat) (r : SearchResult) : String :=
  let title := r.title.getD "No title"
  let url := r.href.getD "No URL"
  let snippet := truncateSnippet (r.body.getD "No description")
  toString i ++ ". **" ++ title ++ "**\n" ++
    "   URL: " ++ url ++ "\n" ++
    "   Description: " ++ snippet ++ "\n\n"

/-- The duckduckgo_search tool: the whole body runs inside try/except, so
every outcome of the external call is turned into a returned string. -/
def duckduckgo_search (query : String) (max_results : Nat) (outcome : SearchBody) : String :=
  match outcome with
  | .importError => "Error: ddgs package not installed. Run: uv add ddgs"
  | .raised e => "Search error: " ++ e
  | .ok results =>
    if results.isEmpty then "No search results found for query: " ++ query
    else
      "Search results for '" ++ query ++ "':\n\n" ++
        String.join ((results.enumFrom 1).map fun p => formatResult p.1 p.2)

end DuckduckgoTool

/-- Claim C3: whenever the web-search tool body raises (including the ddgs
package being uninstalled), duckduckgo_search returns a textual error result
string; the function is total over all outcomes, so no exception propagates
to the caller and the failure is fed back to the model as text. -/
theorem duckduckgo_search_errors_return_text (query msg : String) (n : Nat) :
    DuckduckgoTool.duckduckgo_search query n .importError =
        "Error: ddgs package not installed. Run: uv add ddgs" ∧
      DuckduckgoTool.duckduckgo_search query n (.raised msg) = "Search error: " ++ msg :=
  ⟨rfl, rfl⟩

/-- Claim C6: the snippet placed in the formatted output is bounded: a body
text over 200 characters is cut to its first 200 characters plus "...", so
every formatted snippet has at most 203 characters. -/
theorem snippet_truncation_bounded (s : String) :
    (DuckduckgoTool.truncateSnippet s).length ≤ 203 ∧
      (s.length > 200 →
        DuckduckgoTool.truncateSnippet s = String.mk (s.data.take 200) ++ "...") := by
  constructor
  · unfold DuckduckgoTool.truncateSnippet
    split
    · rw [String.length_append]
      have hmk : (String.mk (s.data.take 200)).length = (s.data.take 200).length := rfl
      have h3 : ("..." : String).length = 3 := rfl
      rw [hmk, List.length_take, h3]
      omega
    · omega
  · intro h
    unfold DuckduckgoTool.truncateSnippet
    rw [if_pos h]

set_option maxRecDepth 4000 in
/-- Witness for C6 at a concrete 201-character snippet. -/
theorem snippet_truncation_bounded_witness :
    (DuckduckgoTool.truncateSnippet (String.mk (List.replicate 201 'a'))).length ≤ 203 ∧
      DuckduckgoTool.truncateSnippet (String.mk (List.replicate 201 'a')) =
        String.mk ((String.mk (List.replicate 201 'a')).data.take 200) ++ "..." :=
  ⟨(snippet_truncation_bounded (String.mk (List.replicate 201 'a'))).1,
    (snippet_truncation_bounded (String.mk (List.replicate 201 'a'))).2 (by decide)⟩

namespace WeatherAgent

/-
Embedding of the simulated weather tools of src/weather_agent_demo.py.
The stream rng of random draws models the successive calls to the random
module, in the order the Python body makes them.
-/

/-- Condition pool of get_weather. -/
def weather_conditions : List String :=
  ["sunny", "partly cloudy", "cloudy", "light rain", "heavy rain", "snow", "foggy", "windy"]

/-- The numeric and textual fields get_weather reports. -/
structure WeatherData where
  temperature : Int
  humidity : Int
  condition : String
  windSpeed : Int
deriving DecidableEq

/-- The desert-city test of get_weather: "desert" in city_lower or
city_lower in ["phoenix", "las vegas", "dubai"]. -/
def isDesertCity (city : String) : Bool :=
  pySubIn "desert" (pyLower city) ||
    (pyLower city == "phoenix" || pyLower city == "las vegas" || pyLower city == "dubai")

/-- The weather values computed by get_weather: baseline draws, then the
geography-based overrides of the branch chain. -/
def get_weather_data (city : String) (rng : Nat → Nat) : WeatherData :=
  let temperature := intRandint (-10) 35 (rng 0)
  let humidity := intRandint 30 90 (rng 1)
  let condition := pyChoice weather_conditions (rng 2)
  let windSpeed := intRandint 5 25 (rng 3)
  let city_lower := pyLower city
  if isDesertCity city then
    { temperature := intRandint 25 45 (rng 4), humidity := intRandint 10 30 (rng 5),
      condition := pyChoice ["sunny", "partly cloudy", "windy"] (rng 6), windSpeed }
  else if city_lower == "seattle" || city_lower == "london" || city_lower == "vancouver" then
    { temperature := intRandint 5 20 (rng 4), humidity := intRandint 60 90 (rng 5),
      condition := pyChoice ["cloudy", "light rain", "heavy rain", "foggy"] (rng 6), windSpeed }
  else if city_lower == "moscow" || city_lower == "helsinki" || city_lower == "anchorage" then
    { temperature := intRandint (-20) 10 (rng 4), humidity,
      condition := pyChoice ["snow", "cloudy", "foggy"] (rng 5), windSpeed }
  else
    { temperature, humidity, condition, windSpeed }

/-- The report string returned by get_weather; current_time stands for the
formatted datetime.now(). -/
def get_weather (city current_time : String) (rng : Nat → Nat) : String :=
  let d := get_weather_data city rng
  "Current weather in " ++ city ++ " (as of " ++ current_time ++ "):\n" ++
    "Temperature: " ++ toString d.temperature ++ "°C\n" ++
    "Humidity: " ++ toString d.humidity ++ "%\n" ++
    "Conditions: " ++ d.condition ++ "\n" ++
    "Wind Speed: " ++ toString d.windSpeed ++ " km/h\n" ++
    "Location: " ++ city ++ "\n\n" ++
    "Weather data " ++ "simulated" ++ " for demonstration purposes."

/-- Condition pool of get_weather_forecast. -/
def forecast_conditions : List String :=
  ["sunny", "partly cloudy", "cloudy", "light rain", "heavy rain", "snow", "foggy"]

/-- The clamp at the top of get_weather_forecast: days = max(1, min(days, 7)). -/
def clampDays (days : Int) : Int := max 1 (min days 7)

/-- One forecast day as generated inside the loop. -/
structure ForecastDay where
  tempHigh : Nat
  tempLow : Nat
  condition : String
  rainChance : Nat
deriving DecidableEq

/-- The draws of one iteration of the forecast loop: temp_high, then
temp_low from [5, temp_high - 5], then condition, then rain_chance. -/
def gen_forecast_day (rng : Nat → Nat) (day : Nat) : ForecastDay :=
  let temp_high := natRandint 15 30 (rng (4 * day))
  let temp_low := natRandint 5 (temp_high - 5) (rng (4 * day + 1))
  let condition := pyChoice forecast_conditions (rng (4 * day + 2))
  let rainChance := natRandint 0 100 (rng (4 * day + 3))
  { tempHigh := temp_high, tempLow := temp_low, condition, rainChance }

/-- The per-day data generated by get_weather_forecast after clamping. -/
def get_weather_forecast_days (days : Int) (rng : Nat → Nat) : List ForecastDay :=
  (List.range (clampDays days).toNat).map (gen_forecast_day rng)

end WeatherAgent

/-- Claim C4: for every desert city (lowercased name containing "desert" or
equal to phoenix, las vegas or dubai), get_weather reports a temperature in
[25, 45] degrees and a humidity in [10, 30] percent, and the returned report
text contains the word "simulated". -/
theorem get_weather_desert_branch (city current_time : String) (rng : Nat → Nat)
    (h : WeatherAgent.isDesertCity city = true) :
    (25 ≤ (WeatherAgent.get_weather_data city rng).temperature ∧
        (WeatherAgent.get_weather_data city rng).temperature ≤ 45) ∧
      (10 ≤ (WeatherAgent.get_weather_data city rng).humidity ∧
        (WeatherAgent.get_weather_data city rng).humidity ≤ 30) ∧
      containsText (WeatherAgent.get_weather city current_time rng) "simulated" := by
  refine ⟨?_, ?_, ?_⟩
  · simp only [WeatherAgent.get_weather_data, h, if_true]
    exact intRandint_mem 25 45 (rng 4) (by omega)
  · simp only [WeatherAgent.get_weather_data, h, if_true]
    exact intRandint_mem 10 30 (rng 5) (by omega)
  · exact ⟨_, _, rfl⟩

/-- Witness for C4 at city Phoenix with a constant draw stream. -/
theorem get_weather_desert_branch_witness :
    (25 ≤ (WeatherAgent.get_weather_data "Phoenix" (fun _ => 0)).temperature ∧
        (WeatherAgent.get_weather_data "Phoenix" (fun _ => 0)).temperature ≤ 45) ∧
      (10 ≤ (WeatherAgent.get_weather_data "Phoenix" (fun _ => 0)).humidity ∧
        (WeatherAgent.get_weather_data "Phoenix" (fun _ => 0)).humidity ≤ 30) ∧
      containsText (WeatherAgent.get_weather "Phoenix" "2025-01-01 12:00" (fun _ => 0))
        "simulated" :=
  get_weather_desert_branch "Phoenix" "2025-01-01 12:00" (fun _ => 0) (by decide)

/-- Claim C10: get_weather_forecast clamps the days argument into [1, 7]
before generating output, and in every generated forecast day the low
temperature is strictly below the high temperature. -/
theorem forecast_days_clamped_and_low_below_high (days : Int) (rng : Nat → Nat) :
    (1 ≤ WeatherAgent.clampDays days ∧ WeatherAgent.clampDays days ≤ 7) ∧
      (WeatherAgent.get_weather_forecast_days days rng).length =
        (WeatherAgent.clampDays days).toNat ∧
      ∀ fd, fd ∈ WeatherAgent.get_weather_forecast_days days rng →
        fd.tempLow < fd.tempHigh := by
  refine ⟨⟨?_, ?_⟩, ?_, ?_⟩
  · simp only [WeatherAgent.clampDays]; omega
  · simp only [WeatherAgent.clampDays]; omega
  · simp [WeatherAgent.get_weather_forecast_days]
  · intro fd hmem
    simp only [WeatherAgent.get_weather_forecast_days, List.mem_map] at hmem
    obtain ⟨d, _, rfl⟩ := hmem
    simp only [WeatherAgent.gen_forecast_day, natRandint]
    have h16 : rng (4 * d) % (30 + 1 - 15) < 30 + 1 - 15 := Nat.mod_lt _ (by omega)
    have hlow : rng (4 * d + 1) % (15 + rng (4 * d) % (30 + 1 - 15) - 5 + 1 - 5) <
        15 + rng (4 * d) % (30 + 1 - 15) - 5 + 1 - 5 := Nat.mod_lt _ (by omega)
    omega

/-- Witness for C10 at days = 10 (above the range) and an identity stream. -/
theorem forecast_days_clamped_witness :
    (1 ≤ WeatherAgent.clampDays 10 ∧ WeatherAgent.clampDays 10 ≤ 7) ∧
      (WeatherAgent.gen_forecast_day (fun i => i) 0).tempLow <
        (WeatherAgent.gen_forecast_day (fun i => i) 0).tempHigh :=
  ⟨(forecast_days_clamped_and_low_below_high 10 (fun i => i)).1,
    (forecast_days_clamped_and_low_below_high 10 (fun i => i)).2.2
      (WeatherAgent.gen_forecast_day (fun i => i) 0) (by decide)⟩

namespace App

/-
Embedding of the session control flow of src/app.py: on_chat_start checks
the GROQ_API_KEY environment variable before building the model chain, and
on_message refuses to run when no runnable was stored in the session.
-/

/-- The runnable chain stored in the session by on_chat_start. -/
structure GroqRunnable where
  apiKey : String
  model : String
  temperature : ℚ
  streaming : Bool
deriving DecidableEq

/-- on_chat_start: given the looked-up credential, the stored runnable (none
when initialization stops early) and the messages sent to the user. -/
def on_chat_start (apiKey : Option String) : Option GroqRunnable × List String :=
  match apiKey with
  | none =>
    (none,
      ["Error: GROQ_API_KEY not found in environment variables. Please check your .env file."])
  | some key =>
    (some { apiKey := key, model := "openai/gpt-oss-20b", temperature := 7/10,
            streaming := true }, [])

/-- What a turn of on_message does: bail out with the uninitialized-session
message, or invoke the model on the question. -/
inductive TurnResult where
  | notInitialized (msg : String)
  | invoked (question : String)
deriving DecidableEq

/-- on_message: the guard on the stored runnable before any model call. -/
def on_message (runnable : Option GroqRunnable) (question : String) : TurnResult :=
  match runnable with
  | none => .notInitialized "Session not initialized properly. Please refresh the page."
  | some _ => .invoked question

/-- Did the turn reach a model invocation? -/
def TurnResult.modelInvoked : TurnResult → Bool
  | .notInitialized _ => false
  | .invoked _ => true

end App

/-- Claim C8 (amended): for every session start handled by app.py at which
no API credential is configured, on_chat_start stores no runnable and
produces the configuration error message, and a subsequent user message is
answered with the session-not-initialized message instead of a model call.
The session start of app3.py performs no credential check and produces no
such message, which is why the claim is scoped to app.py. -/
theorem missing_credential_blocks_session (question : String) :
    (App.on_chat_start none).1 = none ∧
      (App.on_chat_start none).2 =
        ["Error: GROQ_API_KEY not found in environment variables. Please check your .env file."] ∧
      App.on_message (App.on_chat_start none).1 question =
        App.TurnResult.notInitialized
          "Session not initialized properly. Please refresh the page." ∧
      (App.on_message (App.on_chat_start none).1 question).modelInvoked = false :=
  ⟨rfl, rfl, rfl, rfl⟩

namespace Streaming

/-
Embedding of the streaming body of on_message in src/app2.py: each chunk of
runnable.astream is forwarded with stream_token (which also appends it to
the message content), and after the stream ends the accumulated content is
appended to chat_messages as the ai half of the new turn.
-/

/-- State of the streaming loop: the content accumulated in the response
message, and the tokens emitted to the user so far. -/
structure StreamState where
  content : String
  emitted : List String
deriving DecidableEq

/-- One stream_token call: forward the chunk and append it to the content. -/
def stream_token (st : StreamState) (chunk : String) : StreamState :=
  { content := st.content ++ chunk, emitted := st.emitted ++ [chunk] }

/-- The whole streaming loop over the fragments of one model response. -/
def runStream (fragments : List String) : StreamState :=
  fragments.foldl stream_token { content := "", emitted := [] }

/-- Committing the finished turn: the human message and the accumulated ai
content are appended to the session history together. -/
def commitTurn (history : List (String × String)) (question : String)
    (fragments : List String) : List (String × String) :=
  history ++ [("human", question), ("ai", (runStream fragments).content)]

theorem runStream_general (fragments : List String) (c : String) (e : List String) :
    fragments.foldl stream_token { content := c, emitted := e } =
      { content := fragments.foldl (· ++ ·) c, emitted := e ++ fragments } := by
  induction fragments generalizing c e with
  | nil => simp
  | cons f rest ih =>
    simp only [List.foldl_cons, stream_token]
    rw [ih]
    simp

end Streaming

/-- Claim C7: the streaming loop forwards the fragments to the user exactly
in arrival order, and when the stream ends the committed history entry is a
single ai entry holding the full concatenation of the fragments; on the
stream consisting of Hello and a space-prefixed world the committed entry is
Hello world. -/
theorem streaming_order_and_commit (fragments : List String)
    (history : List (String × String)) (question : String) :
    (Streaming.runStream fragments).emitted = fragments ∧
      (Streaming.runStream fragments).content = String.join fragments ∧
      Streaming.commitTurn history question fragments =
        history ++ [("human", question), ("ai", String.join fragments)] ∧
      (Streaming.runStream ["Hello", " world"]).content = "Hello world" := by
  have hgen := Streaming.runStream_general fragments "" []
  refine ⟨?_, ?_, ?_, by decide⟩
  · rw [Streaming.runStream, hgen]
    simp
  · rw [Streaming.runStream, hgen]
    rfl
  · rw [Streaming.commitTurn, Streaming.runStream, hgen]
    rfl

namespace App2

/-
Embedding of the prompt assembly of create_runnable in src/app2.py: the
model-family base prompt (selected by substring tests on the model id, with
a dictionary lookup of the friendly name that raises KeyError when absent)
and the profile-specific trading context (selected by an equality chain with
a generic fallback).
-/

/-- The SUPPORTED_MODELS dict: model id to friendly name. -/
def SUPPORTED_MODELS : List (String × String) :=
  [("openai/gpt-oss-20b", "GPT-OSS 20B (by OpenAI)"),
   ("openai/gpt-oss-120b", "GPT-OSS 120B (by OpenAI)"),
   ("meta-llama/llama-4-maverick-17b-128e-instruct", "LLaMA 4 Maverick 17B (by Meta AI)"),
   ("meta-llama/llama-4-scout-17b-16e-instruct", "LLaMA 4 Scout 17B (by Meta AI)"),
   ("moonshotai/kimi-k2-instruct", "Kimi K2 Instruct (by Moonshot AI)"),
   ("qwen/qwen3-32b", "Qwen 3 32B (by Alibaba Group)")]

/-- The base system prompt of create_runnable, selected by substring tests
on the model identifier; the f-strings index SUPPORTED_MODELS, which raises
KeyError when the model id is not a key. -/
def base_prompt (selected_model reasoning_level : String) : Except String String :=
  if pySubIn "llama" selected_model then
    match SUPPORTED_MODELS.lookup selected_model with
    | some friendly =>
      .ok ("You are a powerful multimodal assistant powered by " ++ friendly ++ ". " ++
        "Developed by Meta AI, you are optimized for reasoning, structured responses, and visual comprehension. " ++
        "Use " ++ reasoning_level ++ " reasoning. Be structured, concise, and capable across multiple tasks.")
    | none => .error ("KeyError: " ++ selected_model)
  else if pySubIn "gpt-oss" selected_model then
    match SUPPORTED_MODELS.lookup selected_model with
    | some friendly =>
      .ok ("You are a helpful AI assistant powered by " ++ friendly ++ ". " ++
        "Created by OpenAI, you operate under open weights and excel in flexible, high-performance reasoning. " ++
        "Your reasoning should be " ++ reasoning_level ++ ". Respond clearly, creatively, and responsibly.")
    | none => .error ("KeyError: " ++ selected_model)
  else if pySubIn "kimi" selected_model then
    match SUPPORTED_MODELS.lookup selected_model with
    | some friendly =>
      .ok ("You are a thoughtful, autonomous assistant running on " ++ friendly ++ ". " ++
        "Developed by Moonshot AI, you specialize in long-context understanding, advanced tool use, and deep reasoning. " ++
        "Use " ++ reasoning_level ++ " reasoning and provide insightful, deliberate answers.")
    | none => .error ("KeyError: " ++ selected_model)
  else if pySubIn "qwen" selected_model then
    match SUPPORTED_MODELS.lookup selected_model with
    | some friendly =>
      .ok ("You are a multilingual and versatile assistant powered by " ++ friendly ++ ". " ++
        "Developed by Alibaba Group, you excel in deep reasoning, fast mode-switching, and global communication. " ++
        "Use " ++ reasoning_level ++ " level of reasoning. Be accurate, helpful, and language-aware.")
    | none => .error ("KeyError: " ++ selected_model)
  else
    .ok ("You are a knowledgeable assistant running on " ++ selected_model ++ ". " ++
      "Use " ++ reasoning_level ++ " level of reasoning. Be accurate and concise.")

/-- Trading context of the general_chat profile. -/
def general_chat_context : String :=
  "\n\nYou are a GENERAL AI ASSISTANT: You can help with any topic including writing, coding, " ++
  "learning, problem-solving, creative tasks, research, explanations, and general conversations. " ++
  "You are NOT focused on trading or finance unless specifically asked. Be helpful, informative, " ++
  "and adaptable to whatever the user needs assistance with."

/-- Trading context of the day_trader profile. -/
def day_trader_context : String :=
  "\n\nYou are specialized in DAY TRADING: Focus on intraday opportunities, scalping, " ++
  "technical analysis, real-time market movements, and quick decision-making. " ++
  "Prioritize speed, efficiency, and risk management for short-term positions."

/-- Trading context of the swing_trader profile. -/
def swing_trader_context : String :=
  "\n\nYou are specialized in SWING TRADING: Focus on multi-day to multi-week positions, " ++
  "trend analysis, momentum plays, and medium-term market movements. " ++
  "Balance technical and fundamental analysis for optimal entry/exit timing."

/-- Trading context of the long_term_investor profile. -/
def long_term_investor_context : String :=
  "\n\nYou are specialized in LONG-TERM INVESTING: Focus on fundamental analysis, " ++
  "portfolio diversification, wealth building, dividend strategies, and multi-year positions. " ++
  "Emphasize research, patience, and compound growth strategies."

/-- Trading context of the crypto_specialist profile. -/
def crypto_specialist_context : String :=
  "\n\nYou are specialized in CRYPTOCURRENCY: Focus on blockchain technology, DeFi protocols, " ++
  "altcoin analysis, NFT markets, crypto trading strategies, and emerging blockchain opportunities. " ++
  "Stay current with crypto news, regulatory changes, and market sentiment."

/-- The fallback trading context for unknown profiles. -/
def default_trading_context : String :=
  "\n\nYou are a general trading and investment assistant. Provide balanced advice " ++
  "across all trading styles and investment strategies."

/-- The profile-specific context of create_runnable: an equality chain over
the chat profile (which may be absent) with a generic fallback. -/
def trading_context (chat_profile : Option String) : String :=
  if chat_profile = some "general_chat" then general_chat_context
  else if chat_profile = some "day_trader" then day_trader_context
  else if chat_profile = some "swing_trader" then swing_trader_context
  else if chat_profile = some "long_term_investor" then long_term_investor_context
  else if chat_profile = some "crypto_specialist" then crypto_specialist_context
  else default_trading_context

/-- The system prompt create_runnable assembles: base_prompt + trading_context. -/
def create_runnable_system_prompt (selected_model reasoning_level : String)
    (chat_profile : Option String) : Except String String :=
  match base_prompt selected_model reasoning_level with
  | .ok b => .ok (b ++ trading_context chat_profile)
  | .error e => .error e

/-- The static persona table the design document describes: persona text
selected by a discrete tag via static lookup (stated from the spec, to be
compared with the equality chain of the source). -/
def persona_lookup_table : List (String × String) :=
  [("general_chat", general_chat_context),
   ("day_trader", day_trader_context),
   ("swing_trader", swing_trader_context),
   ("long_term_investor", long_term_investor_context),
   ("crypto_specialist", crypto_specialist_context)]

end App2

namespace App3

/-- The system prompt assembly of create_runnable in src/app3.py: substring
tests on the model id with a generic fallback (the file keeps only the llama
and gpt-oss cases and the else branch). -/
def app3_system_prompt (selected_model reasoning_level : String) : Except String String :=
  if pySubIn "llama" selected_model then
    match App2.SUPPORTED_MODELS.lookup selected_model with
    | some base =>
      .ok ("You are a multimodal assistant powered by " ++ base ++
        ", designed for structured reasoning. Use " ++ reasoning_level ++ " reasoning.")
    | none => .error ("KeyError: " ++ selected_model)
  else if pySubIn "gpt-oss" selected_model then
    match App2.SUPPORTED_MODELS.lookup selected_model with
    | some base =>
      .ok ("You are a creative assistant powered by " ++ base ++
        ", with open-source weights. Use " ++ reasoning_level ++ " reasoning.")
    | none => .error ("KeyError: " ++ selected_model)
  else
    .ok ("You are an assistant running on " ++ selected_model ++ ". Use " ++
      reasoning_level ++ " reasoning.")

/-- The runnable stored by create_runnable of src/app3.py: the possibly
absent key read from the environment is passed straight through to the
external ChatGroq constructor with no check. -/
structure App3Runnable where
  apiKey : Option String
  model : String
  temperature : ℚ
  streaming : Bool
deriving DecidableEq

/-- Whether the external ChatGroq constructor accepts its arguments or
raises its own validation error; nothing in this repository decides that,
so both outcomes are carried explicitly. -/
inductive ChatGroqCtor where
  | constructed
  | raisedValidation (msg : String)

/-- The session state left behind by on_chat_start of src/app3.py. -/
structure App3Session where
  runnable : Option App3Runnable
  chat_messages : List (String × String)
  sentMessages : List String
deriving DecidableEq

/-- on_chat_start of src/app3.py (with the create_runnable call it awaits):
the settings are read, chat_messages is initialized to [], and
create_runnable is called with os.getenv GROQ_API_KEY unchecked. The handler
performs no credential test and sends no message of its own in either
constructor outcome; when the external constructor raises, the uncaught
exception leaves the runnable unset. -/
def app3_on_chat_start (apiKey : Option String) (selected_model : String)
    (temperature : ℚ) (ctor : ChatGroqCtor) : App3Session :=
  match ctor with
  | .constructed =>
    { runnable := some (App3Runnable.mk apiKey selected_model temperature true),
      chat_messages := [], sentMessages := [] }
  | .raisedValidation _ =>
    { runnable := none, chat_messages := [], sentMessages := [] }

end App3

/-- Counterexample to claim C8 as stated: the session start of app3.py with
no credential configured produces no user-visible configuration error
message — its sent-message list is empty in both outcomes of the external
model constructor — and when that constructor does not raise, a runnable is
stored, so the session is not left uninitialized by this repository's code.
The universal claim over every session start therefore fails at app3.py. -/
theorem app3_missing_credential_no_error_message :
    (App3.app3_on_chat_start none "openai/gpt-oss-20b" (7/10)
        App3.ChatGroqCtor.constructed).sentMessages = [] ∧
      (App3.app3_on_chat_start none "openai/gpt-oss-20b" (7/10)
        (App3.ChatGroqCtor.raisedValidation "Did not find groq_api_key")).sentMessages = [] ∧
      (App3.app3_on_chat_start none "openai/gpt-oss-20b" (7/10)
        App3.ChatGroqCtor.constructed).runnable.isSome = true :=
  ⟨rfl, rfl, rfl⟩

/-- Claim C5: for every chat-profile tag outside the known persona tags and
every model identifier matching no known model family, create_runnable
assembles the generic base prompt with the generic trading context, raising
no error: the result is ok with the well-formed fallback prompt. -/
theorem unknown_tag_and_model_fall_back (selected_model reasoning_level : String)
    (chat_profile : Option String)
    (hp : chat_profile ∉ ([some "general_chat", some "day_trader", some "swing_trader",
      some "long_term_investor", some "crypto_specialist"] : List (Option String)))
    (hm : pySubIn "llama" selected_model = false ∧ pySubIn "gpt-oss" selected_model = false ∧
      pySubIn "kimi" selected_model = false ∧ pySubIn "qwen" selected_model = false) :
    App2.create_runnable_system_prompt selected_model reasoning_level chat_profile =
      Except.ok ("You are a knowledgeable assistant running on " ++ selected_model ++ ". " ++
        "Use " ++ reasoning_level ++ " level of reasoning. Be accurate and concise." ++
        App2.default_trading_context) ∧
      App3.app3_system_prompt selected_model reasoning_level =
        Except.ok ("You are an assistant running on " ++ selected_model ++ ". Use " ++
          reasoning_level ++ " reasoning.") := by
  obtain ⟨h1, h2, h3, h4⟩ := hm
  simp only [List.mem_cons, List.mem_singleton, not_or] at hp
  obtain ⟨p1, p2, p3, p4, p5, _⟩ := hp
  constructor
  · rw [App2.create_runnable_system_prompt, App2.base_prompt]
    simp only [h1, h2, h3, h4, Bool.false_eq_true, if_false]
    rw [App2.trading_context, if_neg p1, if_neg p2, if_neg p3, if_neg p4, if_neg p5]
  · rw [App3.app3_system_prompt]
    simp only [h1, h2, Bool.false_eq_true, if_false]

/-- Witness for C5 at an unrecognized tag and an unrecognized model family. -/
theorem unknown_tag_and_model_fall_back_witness :
    App2.create_runnable_system_prompt "mistralai/mistral-7b" "low" (some "poet") =
      Except.ok ("You are a knowledgeable assistant running on " ++ "mistralai/mistral-7b" ++
        ". " ++ "Use " ++ "low" ++ " level of reasoning. Be accurate and concise." ++
        App2.default_trading_context) ∧
      App3.app3_system_prompt "mistralai/mistral-7b" "low" =
        Except.ok ("You are an assistant running on " ++ "mistralai/mistral-7b" ++ ". Use " ++
          "low" ++ " reasoning.") :=
  unknown_tag_and_model_fall_back "mistralai/mistral-7b" "low" (some "poet")
    (by decide) (by decide)

/-- Claim C9: prompt assembly is deterministic in the persona tag: the
equality chain of create_runnable agrees with a static lookup table from tag
to persona text, so the same tag always maps to the same base instruction
text. -/
theorem trading_context_is_static_lookup (chat_profile : Option String) :
    App2.trading_context chat_profile =
      (chat_profile.bind (fun t => App2.persona_lookup_table.lookup t)).getD
        App2.default_trading_context := by
  rcases chat_profile with _ | t
  · rfl
  · by_cases hq1 : t = "general_chat"
    · subst hq1; rfl
    · by_cases hq2 : t = "day_trader"
      · subst hq2; rfl
      · by_cases hq3 : t = "swing_trader"
        · subst hq3; rfl
        · by_cases hq4 : t = "long_term_investor"
          · subst hq4; rfl
          · by_cases hq5 : t = "crypto_specialist"
            · subst hq5; rfl
            · have b1 : (t == "general_chat") = false := by
                simp [beq_iff_eq]; exact hq1
              have b2 : (t == "day_trader") = false := by
                simp [beq_iff_eq]; exact hq2
              have b3 : (t == "swing_trader") = false := by
                simp [beq_iff_eq]; exact hq3
              have b4 : (t == "long_term_investor") = false := by
                simp [beq_iff_eq]; exact hq4
              have b5 : (t == "crypto_specialist") = false := by
                simp [beq_iff_eq]; exact hq5
              simp [App2.trading_context, App2.persona_lookup_table, List.lookup,
                b1, b2, b3, b4, b5, hq1, hq2, hq3, hq4, hq5]
